import Mathlib

/-!
Shallow embedding of `resume_analysis_bot.py` (YorkieDev/resumeanalysisbot).

Strings are modelled as lists of characters (`Str`), matching Python `str`
indexing/slicing by code point. Python string helpers used by the program
(`strip`, `lower`, slicing) are modelled on the ASCII fragment the program
manipulates.
-/

set_option maxRecDepth 100000

namespace ResumeBot

abbrev Str := List Char

/-- Whitespace characters stripped by Python `str.strip()` (ASCII fragment:
space, tab, newline, carriage return, vertical tab, form feed). -/
def isPySpace (c : Char) : Bool :=
  c = ' ' || c = '\t' || c = '\n' || c = '\r' || c = Char.ofNat 11 || c = Char.ofNat 12

/-- Python `s.strip()`: remove leading and trailing whitespace. -/
def pyStrip (s : Str) : Str :=
  ((s.dropWhile isPySpace).reverse.dropWhile isPySpace).reverse

/-- Python `s.lower()` on the ASCII fragment. -/
def pyLower (s : Str) : Str :=
  s.map Char.toLower

/-- JSON values, for the body parsed by `response.json()` in `CustomLLM._call`. -/
inductive Json where
  | null : Json
  | bool (b : Bool) : Json
  | num (n : Int) : Json
  | str (s : Str) : Json
  | arr (elems : List Json) : Json
  | obj (fields : List (Str × Json)) : Json

/-- Python exceptions that the parsing expression in `CustomLLM._call` can raise. -/
inductive PyError where
  | indexError : PyError
  | attributeError : PyError
  | eofError : PyError
deriving DecidableEq

/-- Python `d.get(k, default)`: on a dict, look the key up with the default;
on any non-dict value it raises `AttributeError`. -/
def jsonGet (j : Json) (k : Str) (default : Json) : Except PyError Json :=
  match j with
  | .obj fields => .ok ((fields.lookup k).getD default)
  | _ => .error .attributeError

/-- Python `x[0]` on a parsed JSON value: on a list, index 0 or `IndexError`
when empty; on any non-list value `AttributeError` stands in for the
corresponding runtime `TypeError`-class failure (never reached on the
inputs the claims use). -/
def jsonIndex0 (j : Json) : Except PyError Json :=
  match j with
  | .arr elems =>
    match elems with
    | [] => .error .indexError
    | x :: _ => .ok x
  | _ => .error .attributeError

/-- The sentinel of `CustomLLM._call`, line 71: `"No valid response."`. -/
def noValidResponse : Str := "No valid response.".data

/-- Line 71 of `resume_analysis_bot.py`:
`response_json.get('choices', [{}])[0].get('message', {}).get('content', "No valid response.")`. -/
def extractContent (response_json : Json) : Except PyError Json := do
  let choices ← jsonGet response_json "choices".data (.arr [.obj []])
  let first ← jsonIndex0 choices
  let message ← jsonGet first "message".data (.obj [])
  jsonGet message "content".data (.str noValidResponse)

/-- Outcome of the HTTP POST of lines 63-67: either the request raised a
`requests.RequestException` (connection refused, timeout, DNS failure, or a
non-2xx status turned into an exception by `raise_for_status`), carrying the
rendered exception text, or it succeeded with a parsed JSON body. -/
inductive TransportResult where
  | failure (errText : Str) : TransportResult
  | success (body : Json) : TransportResult

/-- Prefix of the string built by line 67: `f"Network or request error: {e}"`. -/
def networkErrorPrefix : Str := "Network or request error: ".data

/-- `CustomLLM._call` (lines 44-71) as a function of the transport outcome:
a transport failure is caught and returned as an ordinary string; on success
the content is extracted from the JSON body (which may raise). -/
def CustomLLM_call (t : TransportResult) : Except PyError Json :=
  match t with
  | .failure e => .ok (.str (networkErrorPrefix ++ e))
  | .success body => extractContent body

/-- Fixed text of `resume_prompt` (lines 121-131) before the `{resume_text}`
placeholder. -/
def analysisPromptPrefix : Str :=
  ("You are a seasoned career advisor and resume expert. Analyze the resume provided below and perform the following tasks:\n1. Identify the candidate\x27s key skills and competencies.\n2. Highlight the strengths and areas for improvement in the resume.\n3. Provide actionable suggestions for formatting, content, and clarity enhancements.\n\nResume:\n").data

/-- Fixed text of `resume_prompt` after the `{resume_text}` placeholder. -/
def analysisPromptSuffix : Str :=
  "\n\nPlease provide your analysis in a clear and concise manner.".data

/-- `resume_prompt.format(resume_text=...)` (line 134): langchain
`PromptTemplate` with f-string substitution inserts the value verbatim. -/
def buildAnalysisPrompt (resume_text : Str) : Str :=
  analysisPromptPrefix ++ resume_text ++ analysisPromptSuffix

/-- Fixed text of `followup_template` (lines 147-155) before `{analysis}`. -/
def followupPromptPrefix : Str :=
  ("You are a seasoned career advisor and resume expert. The following is the previous analysis of a candidate\x27s resume:\n").data

/-- Fixed text of `followup_template` between `{analysis}` and `{question}`. -/
def followupPromptMid : Str :=
  "\n\nNow, the candidate has a follow-up question: ".data

/-- Fixed text of `followup_template` after `{question}`. -/
def followupPromptSuffix : Str :=
  "\n\nPlease provide detailed, actionable suggestions on how to improve the resume based on this question.".data

/-- `followup_template.format(analysis=..., question=...)` (line 165). -/
def buildFollowupPrompt (analysis question : Str) : Str :=
  followupPromptPrefix ++ analysis ++ followupPromptMid ++ question ++ followupPromptSuffix

/-- An observable step of `run_analysis`: a line printed to stdout, or a call
of the `CustomLLM` instance recording the prompt sent and the string the call
returned. -/
inductive Event where
  | print (s : Str) : Event
  | llmCall (prompt response : Str) : Event
deriving DecidableEq

/-- Environment a `run_analysis` run interacts with: whether `os.path.exists`
holds for the given path, the outcome of `extract_text_from_pdf` (exception
text or extracted text), the `CustomLLM` behaviour as a function from prompt
to returned string, and the stream of `input()` lines for the follow-up loop. -/
structure Env where
  pathExists : Bool
  extraction : Except Str Str
  llm : Str → Str
  inputs : List Str

/-- Message printed at line 163. -/
def noQuestionMsg : Str := "No question entered. Exiting follow-up.".data

/-- Header printed at line 166. -/
def processingMsg : Str := "\nProcessing your follow-up question...\n".data

/-- Header printed at line 168. -/
def followupAdviceHeader : Str := "Follow-Up Advice:\n".data

/-- Header printed at line 116. -/
def previewHeader : Str := "\nExtracted Resume Text Preview:\n".data

/-- Header printed at line 138. -/
def analyzingMsg : Str := "\nAnalyzing resume with the language model...\n".data

/-- Header printed at line 141. -/
def modelFeedbackHeader : Str := "Model Feedback:\n".data

/-- Condition of line 159: `user_choice not in ['yes', 'y']` is false, where
`user_choice = input(...).strip().lower()`. -/
def wantsFollowup (c : Str) : Prop :=
  pyLower (pyStrip c) = "yes".data ∨ pyLower (pyStrip c) = "y".data

instance (c : Str) : Decidable (wantsFollowup c) := by
  unfold wantsFollowup; infer_instance

/-- The `while True` loop of lines 157-169. Each iteration reads the yes/no
choice and, when it proceeds, the question; the events produced so far are
kept even when a later `input()` hits end of input (`EOFError`), which the
second component records. `feedback` is read every round and never written:
line 167 binds the response to `followup_response` without reassigning
`feedback`. -/
def followupLoop (llm : Str → Str) (feedback : Str) : List Str → List Event × Option PyError
  | [] => ([], some .eofError)
  | c :: rest =>
    if wantsFollowup c then
      match rest with
      | [] => ([], some .eofError)
      | q :: rest2 =>
        if pyStrip q = [] then ([.print noQuestionMsg], none)
        else
          (.print processingMsg
            :: .llmCall (buildFollowupPrompt feedback (pyStrip q))
              (llm (buildFollowupPrompt feedback (pyStrip q)))
            :: .print followupAdviceHeader
            :: .print (llm (buildFollowupPrompt feedback (pyStrip q)))
            :: (followupLoop llm feedback rest2).1,
           (followupLoop llm feedback rest2).2)
    else ([], none)

/-- Line 117:
`preview = resume_text[:500] + "..." if len(resume_text) > 500 else resume_text`. -/
def previewOf (resume_text : Str) : Str :=
  if resume_text.length > 500 then resume_text.take 500 ++ "...".data else resume_text

/-- Message prefix of line 102. -/
def fileNotFoundPrefix : Str := "File not found: ".data

/-- Message prefix of line 108. -/
def extractionErrorPrefix : Str := "Error extracting text from PDF: ".data

/-- Message of line 112. -/
def noTextMsg : Str := "No text extracted from PDF.".data

/-- `run_analysis(api_url, model_name, pdf_path)` (lines 91-169) as a function
of the environment, returning the trace of prints and LLM calls together with
the exception, if any, that escaped (only `EOFError` from an exhausted input
stream can). -/
def run_analysis (env : Env) (pdf_path : Str) : List Event × Option PyError :=
  if env.pathExists = false then ([.print (fileNotFoundPrefix ++ pdf_path)], none)
  else
    match env.extraction with
    | .error e => ([.print (extractionErrorPrefix ++ e)], none)
    | .ok resume_text =>
      if pyStrip resume_text = [] then ([.print noTextMsg], none)
      else
        (.print previewHeader
          :: .print (previewOf resume_text)
          :: .print analyzingMsg
          :: .llmCall (buildAnalysisPrompt resume_text)
              (env.llm (buildAnalysisPrompt resume_text))
          :: .print modelFeedbackHeader
          :: .print (env.llm (buildAnalysisPrompt resume_text))
          :: (followupLoop env.llm (env.llm (buildAnalysisPrompt resume_text)) env.inputs).1,
         (followupLoop env.llm (env.llm (buildAnalysisPrompt resume_text)) env.inputs).2)

/-- The prompts of the LLM calls in a trace, in order. -/
def llmPrompts : List Event → List Str
  | [] => []
  | .llmCall p _ :: rest => p :: llmPrompts rest
  | .print _ :: rest => llmPrompts rest

/-- The responses of the LLM calls in a trace, in order. -/
def llmResponses : List Event → List Str
  | [] => []
  | .llmCall _ r :: rest => r :: llmResponses rest
  | .print _ :: rest => llmResponses rest

/-- The printed lines of a trace, in order. -/
def printedMsgs : List Event → List Str
  | [] => []
  | .llmCall _ _ :: rest => printedMsgs rest
  | .print s :: rest => s :: printedMsgs rest

/-- The (stripped) follow-up questions the loop of lines 157-169 accepts from
an input stream: questions entered after a yes-style choice, stopping at the
first non-yes choice, empty question, or end of input. -/
def acceptedQuestions : List Str → List Str
  | [] => []
  | c :: rest =>
    if wantsFollowup c then
      match rest with
      | [] => []
      | q :: rest2 => if pyStrip q = [] then [] else pyStrip q :: acceptedQuestions rest2
    else []

/-! Concrete environments used to instantiate the theorems below. -/

/-- A short concrete resume text. -/
def resumeA : Str := "Jane Doe. Software engineer. Shipped things.".data

/-- A concrete initial feedback string. -/
def fbA : Str := "FB-ZERO initial analysis".data

/-- A concrete first follow-up response, marked with a character that occurs
nowhere in the templates or the other concrete strings. -/
def respA1 : Str := "#R1-FIRST-FOLLOWUP#".data

/-- A concrete second follow-up response. -/
def respA2 : Str := "#R2-SECOND-FOLLOWUP#".data

/-- A deterministic LLM stub: answers `fbA` to the initial analysis prompt,
`respA1` to the first follow-up prompt, `respA2` to anything else. -/
def llmA (p : Str) : Str :=
  if p = buildAnalysisPrompt resumeA then fbA
  else if p = buildFollowupPrompt fbA "Q-ONE".data then respA1
  else respA2

/-- Environment for a run with two follow-up rounds, then a stop. -/
def envA : Env :=
  { pathExists := true
    extraction := .ok resumeA
    llm := llmA
    inputs := ["yes".data, "Q-ONE".data, "yes".data, "Q-TWO".data, "no".data] }

/-- The rendered `requests` exception text of a refused connection, as the
string `CustomLLM._call` line 67 would return it. -/
def errStrB : Str :=
  networkErrorPrefix ++ "HTTPConnectionPool(host=localhost, port=1234): connection refused".data

/-- Environment whose LLM always returns the error-style string `errStrB`,
with one follow-up round requested. -/
def envB : Env :=
  { pathExists := true
    extraction := .ok resumeA
    llm := fun _ => errStrB
    inputs := ["yes".data, "Q-ONE".data, "no".data] }

/-- Environment for a path that does not exist. -/
def envMissing : Env :=
  { pathExists := false
    extraction := .error []
    llm := fun _ => []
    inputs := [] }

/-- Whitespace-only extracted text. -/
def blankText : Str := "  \n\t  ".data

/-- Environment whose extraction yields non-empty, whitespace-only text. -/
def envBlank : Env :=
  { pathExists := true
    extraction := .ok blankText
    llm := fun _ => []
    inputs := [] }

/-! Helper lemmas shared by the claim theorems. -/

/-- The prompts sent by the follow-up loop are exactly the accepted questions,
each embedded into the follow-up template around the same, never-updated
feedback string. -/
theorem followupLoop_prompts_eq (llm : Str → Str) (fb : Str) :
    ∀ inputs : List Str,
      llmPrompts (followupLoop llm fb inputs).1 =
        (acceptedQuestions inputs).map (buildFollowupPrompt fb)
  | [] => by simp [followupLoop, acceptedQuestions, llmPrompts]
  | [c] => by
    by_cases h : wantsFollowup c <;>
      simp [followupLoop, acceptedQuestions, llmPrompts, h]
  | c :: q :: rest2 => by
    by_cases h : wantsFollowup c
    · by_cases hq : pyStrip q = []
      · simp [followupLoop, acceptedQuestions, llmPrompts, h, hq]
      · have ih := followupLoop_prompts_eq llm fb rest2
        simp [followupLoop, acceptedQuestions, llmPrompts, h, hq, ih]
    · simp [followupLoop, acceptedQuestions, llmPrompts, h]

/-- The feedback string is embedded verbatim (as a contiguous infix) in every
follow-up prompt built from it. -/
theorem followup_embeds_feedback (fb q : Str) : fb <:+: buildFollowupPrompt fb q :=
  ⟨followupPromptPrefix, followupPromptMid ++ q ++ followupPromptSuffix, by
    simp [buildFollowupPrompt]⟩

/-- C1, counterexample: in the run of `envA` (inputs yes, Q-ONE, yes, Q-TWO,
no) the prompt of follow-up round 2 is built from the initial feedback `fbA`,
not from round 1 response `respA1`; `respA1` differs from `fbA` and does not
occur in the round-2 prompt at all, so the prompt of round n+1 does not embed
the response of round n. -/
theorem C1_counterexample :
    llmPrompts (run_analysis envA "r.pdf".data).1 =
      [buildAnalysisPrompt resumeA,
       buildFollowupPrompt fbA "Q-ONE".data,
       buildFollowupPrompt fbA "Q-TWO".data] ∧
    llmResponses (run_analysis envA "r.pdf".data).1 = [fbA, respA1, respA2] ∧
    respA1 ≠ fbA ∧
    ¬ respA1 <:+: buildFollowupPrompt fbA "Q-TWO".data :=
  ⟨by decide, by decide, by decide, by decide⟩

/-- C1, amended: each follow-up round builds its prompt from the stored
feedback and the just-entered (stripped) question, but the stored feedback is
never overwritten: the prompts of all rounds embed the same feedback string
`fb` (the initial response) verbatim, one prompt per accepted question. -/
theorem C1_amended_theorem (llm : Str → Str) (fb q : Str) (inputs : List Str) :
    llmPrompts (followupLoop llm fb inputs).1 =
      (acceptedQuestions inputs).map (buildFollowupPrompt fb) ∧
    fb <:+: buildFollowupPrompt fb q :=
  ⟨followupLoop_prompts_eq llm fb inputs, followup_embeds_feedback fb q⟩

/-- C2, counterexample: with an LLM that always returns the error-style
string `errStrB`, the session still runs the follow-up loop to normal
completion (no exception), but the error string is stored as feedback and
folded verbatim into the next follow-up prompt — refuting that error messages
are never folded into later prompts. -/
theorem C2_counterexample :
    llmPrompts (run_analysis envB "r.pdf".data).1 =
      [buildAnalysisPrompt resumeA, buildFollowupPrompt errStrB "Q-ONE".data] ∧
    errStrB <:+: buildFollowupPrompt errStrB "Q-ONE".data ∧
    (run_analysis envB "r.pdf".data).2 = none :=
  ⟨by decide, by decide, by decide⟩

/-- C2, amended: the stored feedback is set exactly once, to whatever string
the initial `CustomLLM` call returned — success or error-style alike — and
every follow-up prompt embeds that same initial response; follow-up responses
(failed or not) never change it, and the session proceeds to the follow-up
choice loop regardless of the response content. -/
theorem C2_amended_theorem (env : Env) (p t : Str) (hp : env.pathExists = true)
    (hx : env.extraction = .ok t) (hs : pyStrip t ≠ []) :
    llmPrompts (run_analysis env p).1 =
      buildAnalysisPrompt t ::
        (acceptedQuestions env.inputs).map
          (buildFollowupPrompt (env.llm (buildAnalysisPrompt t))) := by
  simp [run_analysis, hp, hx, hs, llmPrompts, followupLoop_prompts_eq]

/-- Witness for the C2 amended theorem at `envB`, whose LLM always returns
the error-style string `errStrB`. -/
theorem C2_amended_witness :
    llmPrompts (run_analysis envB "r.pdf".data).1 =
      buildAnalysisPrompt resumeA ::
        (acceptedQuestions envB.inputs).map
          (buildFollowupPrompt (envB.llm (buildAnalysisPrompt resumeA))) :=
  C2_amended_theorem envB "r.pdf".data resumeA rfl rfl (by decide)

/-- C3: the parsing expression of `CustomLLM._call` raises `IndexError` on the
body `\x7b"choices": []\x7d` instead of returning the sentinel, although a
neighbouring malformed body (no `choices` key at all) does return the
sentinel — the chain of `.get` defaults shows the no-raise intent that the
empty-list index defeats. -/
theorem C3_code_bug :
    CustomLLM_call (.success (Json.obj [("choices".data, Json.arr [])])) =
      .error .indexError ∧
    CustomLLM_call (.success (Json.obj [])) = .ok (.str noValidResponse) :=
  ⟨rfl, rfl⟩

/-- C4, counterexample: a text of length exactly 500 has length ≥ 500, yet
its preview is the text itself with no ellipsis appended, not the first 500
characters followed by an ellipsis. -/
theorem C4_counterexample :
    (List.replicate 500 'a').length ≥ 500 ∧
    previewOf (List.replicate 500 'a') = List.replicate 500 'a' ∧
    previewOf (List.replicate 500 'a') ≠
      (List.replicate 500 'a').take 500 ++ "...".data :=
  ⟨by decide, by decide, by decide⟩

/-- C4, amended: the preview the session prints (the second printed line)
equals the text exactly when its length is at most 500 (no ellipsis, also at
exactly 500), and the first 500 characters followed by the ellipsis marker
only when the length is strictly greater than 500. -/
theorem C4_amended_theorem (env : Env) (p t : Str) (hp : env.pathExists = true)
    (hx : env.extraction = .ok t) (hs : pyStrip t ≠ []) :
    (printedMsgs (run_analysis env p).1).get? 1 =
      some (if t.length > 500 then t.take 500 ++ "...".data else t) := by
  simp [run_analysis, hp, hx, hs, printedMsgs, previewOf]

/-- Witness for the C4 amended theorem at the concrete environment `envA`. -/
theorem C4_amended_witness :
    (printedMsgs (run_analysis envA "r.pdf".data).1).get? 1 =
      some (if resumeA.length > 500 then resumeA.take 500 ++ "...".data
            else resumeA) :=
  C4_amended_theorem envA "r.pdf".data resumeA rfl rfl (by decide)

/-- C5: for every well-formed body of shape
`\x7bchoices: [\x7bmessage: \x7bcontent: s\x7d\x7d]\x7d` the call returns
exactly the content string `s`. -/
theorem C5_theorem (s : Str) :
    CustomLLM_call (.success (Json.obj [("choices".data,
        Json.arr [Json.obj [("message".data,
          Json.obj [("content".data, Json.str s)])]])])) =
      .ok (.str s) := rfl

/-- C6: every transport failure (connection refused, timeout, DNS failure,
non-2xx status — anything `requests` raises as a `RequestException`) is
returned to the caller as the descriptive string
`"Network or request error: ..."`; the call yields a value, never an
exception. -/
theorem C6_theorem (e : Str) :
    CustomLLM_call (.failure e) = .ok (.str (networkErrorPrefix ++ e)) := rfl

/-- C7: when the path does not exist, the whole run prints exactly the
`File not found:` message and makes zero LLM calls. -/
theorem C7_theorem (env : Env) (p : Str) (h : env.pathExists = false) :
    (run_analysis env p).1 = [.print (fileNotFoundPrefix ++ p)] ∧
    llmPrompts (run_analysis env p).1 = [] := by
  simp [run_analysis, h, llmPrompts]

/-- Witness for C7 at the path `/no/such/file.pdf`. -/
theorem C7_witness :
    (run_analysis envMissing "/no/such/file.pdf".data).1 =
      [.print (fileNotFoundPrefix ++ "/no/such/file.pdf".data)] ∧
    llmPrompts (run_analysis envMissing "/no/such/file.pdf".data).1 = [] :=
  C7_theorem envMissing "/no/such/file.pdf".data rfl

/-- C8, counterexample: the answer `" yes"` is not a letter-case variant of
`"yes"` or `"y"` (lowercasing alone does not map it to either), yet the loop
proceeds to a follow-up round and makes an LLM call, because the code strips
surrounding whitespace before comparing. -/
theorem C8_counterexample :
    pyLower " yes".data ≠ "yes".data ∧
    pyLower " yes".data ≠ "y".data ∧
    llmPrompts (followupLoop (fun _ => []) fbA
        [" yes".data, "Q-ONE".data, "no".data]).1 =
      [buildFollowupPrompt fbA "Q-ONE".data] :=
  ⟨by decide, by decide, by decide⟩

/-- C8, amended: the yes/no answer is stripped of surrounding whitespace and
lowercased; exactly the stripped answers lowercasing to `"yes"` or `"y"`
continue to a follow-up round, any other answer terminates the loop with no
further call, and a follow-up question that strips to empty after a yes-style
answer also terminates with no further LLM call. -/
theorem C8_amended_theorem (llm : Str → Str) (fb c d q q2 : Str)
    (rest : List Str)
    (hc : wantsFollowup c) (hd : ¬ wantsFollowup d)
    (hq : pyStrip q = []) (hq2 : pyStrip q2 ≠ []) :
    followupLoop llm fb (d :: rest) = ([], none) ∧
    followupLoop llm fb (c :: q :: rest) = ([.print noQuestionMsg], none) ∧
    llmPrompts (followupLoop llm fb (c :: q2 :: rest)).1 =
      buildFollowupPrompt fb (pyStrip q2)
        :: llmPrompts (followupLoop llm fb rest).1 := by
  refine ⟨?_, ?_, ?_⟩
  · cases rest with
    | nil => simp [followupLoop, hd]
    | cons a as => simp [followupLoop, hd]
  · simp [followupLoop, hc, hq]
  · simp [followupLoop, hc, hq2, llmPrompts]

/-- Witness for the C8 amended theorem: `"YeS"` (mixed case) continues,
`"maybe"` stops, a blank question stops, `"Q-TWO"` is asked. -/
theorem C8_amended_witness :
    followupLoop (fun _ => []) fbA ("maybe".data :: ["no".data]) = ([], none) ∧
    followupLoop (fun _ => []) fbA
        ("YeS".data :: "   ".data :: ["no".data]) =
      ([.print noQuestionMsg], none) ∧
    llmPrompts (followupLoop (fun _ => []) fbA
        ("YeS".data :: "Q-TWO".data :: ["no".data])).1 =
      buildFollowupPrompt fbA (pyStrip "Q-TWO".data)
        :: llmPrompts (followupLoop (fun _ => []) fbA ["no".data]).1 :=
  C8_amended_theorem (fun _ => []) fbA "YeS".data "maybe".data "   ".data
    "Q-TWO".data ["no".data] (by decide) (by decide) (by decide) (by decide)

/-- C9: the analysis prompt embeds the resume text unaltered between the two
fixed template parts (so two prompts differ only in that region), and the
rendering is injective in the resume text. -/
theorem C9_theorem (t1 t2 : Str)
    (h : buildAnalysisPrompt t1 = buildAnalysisPrompt t2) :
    t1 = t2 ∧
    buildAnalysisPrompt t1 = analysisPromptPrefix ++ t1 ++ analysisPromptSuffix := by
  refine ⟨?_, rfl⟩
  have h2 := List.append_cancel_right (h : (analysisPromptPrefix ++ t1) ++ analysisPromptSuffix = (analysisPromptPrefix ++ t2) ++ analysisPromptSuffix)
  exact List.append_cancel_left h2

/-- Witness for C9 at two equal concrete resume texts. -/
theorem C9_witness :
    resumeA = resumeA ∧
    buildAnalysisPrompt resumeA =
      analysisPromptPrefix ++ resumeA ++ analysisPromptSuffix :=
  C9_theorem resumeA resumeA rfl

/-- C10: whenever the extracted text strips to the empty string — also when
the text itself is non-empty whitespace — the session prints exactly
`No text extracted from PDF.` and makes no LLM call. -/
theorem C10_theorem (env : Env) (p t : Str) (hp : env.pathExists = true)
    (hx : env.extraction = .ok t) (hs : pyStrip t = []) :
    (run_analysis env p).1 = [.print noTextMsg] ∧
    llmPrompts (run_analysis env p).1 = [] := by
  simp [run_analysis, hp, hx, hs, llmPrompts]

/-- Witness for C10 at a non-empty, whitespace-only extracted text. -/
theorem C10_witness :
    blankText ≠ ([] : Str) ∧
    ((run_analysis envBlank "r.pdf".data).1 = [.print noTextMsg] ∧
     llmPrompts (run_analysis envBlank "r.pdf".data).1 = []) :=
  ⟨by decide, C10_theorem envBlank "r.pdf".data blankText rfl rfl (by decide)⟩

end ResumeBot
